import Mathlib

/-!
Shallow embedding of `src/api/send-email.js`: an HTTP contact-form handler
with an in-memory rate limiter, honeypot and timing bot guards, field and
email-format validation, and a relay dispatch to an external mail API.

Conventions of the embedding:
* JS timestamps (`Date.now()`, `windowStart`) are `Int` milliseconds.
* Optional request/body fields are `Option String`; JS truthiness of such a
  field is `truthy` (absent and empty string are falsy).
* `parseInt(s, 10)` is `parseIntJS : String → Option Int`, `none` standing
  for `NaN`; a comparison `NaN < k` is `false`, which the embedding encodes
  by matching on the `Option`.
* The relay (`fetch` + `response.json()`) is passed in as the outcome the
  call would produce: `none` models the call throwing (the `catch` path),
  `some d` models a completed response with `d.ok = response.ok` and
  `d.id = data.id`.
* `console.error` calls are collected in an event list `logs`.
* The rate-limit map is represented per key: the handler receives the entry
  currently stored for the request's source address (or `none`) and returns
  the entry it stores back (`none` meaning the map is untouched, which
  happens only on the 405 path that precedes the rate-limit guard).
-/

namespace SendEmail

/-- `const RATE_LIMIT_WINDOW = 60 * 1000` (milliseconds). -/
def RATE_LIMIT_WINDOW : Int := 60 * 1000

/-- `const RATE_LIMIT_MAX = 3`. -/
def RATE_LIMIT_MAX : Nat := 3

/-- `const MIN_SUBMIT_TIME = 3000` (milliseconds). -/
def MIN_SUBMIT_TIME : Int := 3000

/-- A rate-limit map entry: `{ windowStart, count }`. -/
structure RLEntry where
  windowStart : Int
  count : Nat
deriving DecidableEq, Repr

/-- JS truthiness of an optional string field: `undefined` and `""` are
falsy, every other string is truthy. -/
def truthy : Option String → Bool
  | none => false
  | some s => s ≠ ""

/--
`isRateLimited(ip)` from the source, per key: given the current time and
the entry stored for the ip (or `none`), return whether the request is
rate-limited together with the entry the map holds afterwards.

```js
if (!entry || now - entry.windowStart > RATE_LIMIT_WINDOW) {
  rateLimit.set(ip, { windowStart: now, count: 1 });
  return false;
}
entry.count++;
if (entry.count > RATE_LIMIT_MAX) { return true; }
return false;
```
-/
def isRateLimited (now : Int) (entry : Option RLEntry) : Bool × RLEntry :=
  match entry with
  | none => (false, ⟨now, 1⟩)
  | some e =>
    if now - e.windowStart > RATE_LIMIT_WINDOW then
      (false, ⟨now, 1⟩)
    else
      let c := e.count + 1
      (decide (c > RATE_LIMIT_MAX), ⟨e.windowStart, c⟩)

/-- Value of one decimal-digit list, most significant first. -/
def digitsToNat (cs : List Char) : Nat :=
  cs.foldl (fun a c => a * 10 + (c.toNat - 48)) 0

/--
JS `parseInt(s, 10)`: skip leading whitespace, take an optional sign, then
the longest prefix of decimal digits; `NaN` (here `none`) if that prefix is
empty.
-/
def parseIntJS (s : String) : Option Int :=
  let cs := s.toList.dropWhile Char.isWhitespace
  let signAndRest : Int × List Char :=
    match cs with
    | '-' :: rest => (-1, rest)
    | '+' :: rest => (1, rest)
    | _ => (1, cs)
  let ds := signAndRest.2.takeWhile Char.isDigit
  if ds.isEmpty then none
  else some (signAndRest.1 * (digitsToNat ds : Int))

/-- A character matched by the regex class `[^\s@]`. -/
def isAtomChar (c : Char) : Bool := !c.isWhitespace && c ≠ '@'

/--
`emailRegex.test(email)` for `/^[^\s@]+@[^\s@]+\.[^\s@]+$/`: the string is
`local@domain` where `local` is a nonempty run of non-whitespace
non-`@` characters (hence everything before the first `@`), and `domain`
is a nonempty run of non-whitespace non-`@` characters containing a `.`
that is neither its first nor its last character (the `\.` of the regex,
with nonempty `[^\s@]+` on both sides).
-/
def emailRegexTest (email : String) : Bool :=
  let cs := email.toList
  let localPart := cs.takeWhile (fun c => c ≠ '@')
  match cs.dropWhile (fun c => c ≠ '@') with
  | '@' :: domain =>
    !localPart.isEmpty && localPart.all isAtomChar &&
    !domain.isEmpty && domain.all isAtomChar &&
    domain.tail.dropLast.contains '.'
  | _ => false

/-- The submission body `{name, email, phone, service, message, website,
timestamp}`; every field may be absent. -/
structure Body where
  name : Option String
  email : Option String
  phone : Option String
  service : Option String
  message : Option String
  website : Option String
  timestamp : Option String
deriving DecidableEq, Repr

/-- The `{}` default used by `const body = req.body || {};`. -/
def emptyBody : Body := ⟨none, none, none, none, none, none, none⟩

/-- The inbound request: method, the two source-address headers, and an
optional body. -/
structure Request where
  method : String
  xForwardedFor : Option String
  xRealIp : Option String
  body : Option Body
deriving DecidableEq, Repr

/-- `req.headers['x-forwarded-for'] || req.headers['x-real-ip'] || 'unknown'`. -/
def getIp (req : Request) : String :=
  if truthy req.xForwardedFor then req.xForwardedFor.getD "unknown"
  else if truthy req.xRealIp then req.xRealIp.getD "unknown"
  else "unknown"

/-- Outcome of a completed relay call: `response.ok` and `data.id`. -/
structure RelayData where
  ok : Bool
  id : Option String
deriving DecidableEq, Repr

/-- The JSON bodies the handler can respond with. -/
inductive RespBody where
  /-- `{error: msg}` -/
  | err (msg : String)
  /-- `{error: msg, details: {name, email, message}}` -/
  | errDetails (msg : String) (name email message : Bool)
  /-- `{success: true}` -/
  | ok
  /-- `{success: true, id}` -/
  | okId (id : Option String)
deriving DecidableEq, Repr

/-- An HTTP response: status code and JSON body. -/
structure Response where
  status : Nat
  body : RespBody
deriving DecidableEq, Repr

/-- A `console.error` event emitted by the handler. -/
inductive LogEvent where
  /-- `console.error('Missing fields:', ...)` with the three presence flags. -/
  | missingFields (name email message : Bool)
  /-- `console.error('Resend error:', data)`. -/
  | resendError
  /-- `console.error('Server error:', error)`. -/
  | serverError
deriving DecidableEq, Repr

/-- Everything one invocation of the handler produces: the response, the
rate-limit entry stored for the request's ip afterwards (`none` = map
untouched), how many relay calls were made, and the logs emitted. -/
structure HandlerResult where
  resp : Response
  newEntry : Option RLEntry
  relayCalls : Nat
  logs : List LogEvent
deriving DecidableEq, Repr

/--
The timing guard of the handler:

```js
if (timestamp) {
  const submitTime = Date.now() - parseInt(timestamp, 10);
  if (submitTime < MIN_SUBMIT_TIME) { ... }
}
```

`true` exactly when the guard fires (silent accept). A `NaN` from
`parseInt` makes `submitTime < MIN_SUBMIT_TIME` false.
-/
def timestampFires (now : Int) (ts : Option String) : Bool :=
  match ts with
  | none => false
  | some s =>
    if s = "" then false
    else
      match parseIntJS s with
      | none => false
      | some t => decide (now - t < MIN_SUBMIT_TIME)

/--
`handler(req, res)` from the source. `now` is `Date.now()`, `entry` the
rate-limit entry stored for `getIp req`, `relay` the outcome the relay call
would produce if made.
-/
def handler (req : Request) (now : Int) (entry : Option RLEntry)
    (relay : Option RelayData) : HandlerResult :=
  if req.method ≠ "POST" then
    ⟨⟨405, .err "Method not allowed"⟩, none, 0, []⟩
  else
    let rl := isRateLimited now entry
    if rl.1 then
      ⟨⟨429, .err "Too many requests. Please try again later."⟩, some rl.2, 0, []⟩
    else
      let body := req.body.getD emptyBody
      if truthy body.website then
        ⟨⟨200, .ok⟩, some rl.2, 0, []⟩
      else if timestampFires now body.timestamp then
        ⟨⟨200, .ok⟩, some rl.2, 0, []⟩
      else
        let nameB := truthy body.name
        let emailB := truthy body.email
        let msgB := truthy body.message
        if !(nameB && emailB && msgB) then
          ⟨⟨400, .errDetails "Missing required fields" nameB emailB msgB⟩,
            some rl.2, 0, [.missingFields nameB emailB msgB]⟩
        else if !emailRegexTest (body.email.getD "") then
          ⟨⟨400, .err "Invalid email format"⟩, some rl.2, 0, []⟩
        else
          match relay with
          | none =>
            ⟨⟨500, .err "Server error"⟩, some rl.2, 1, [.serverError]⟩
          | some d =>
            if !d.ok then
              ⟨⟨500, .err "Failed to send email"⟩, some rl.2, 1, [.resendError]⟩
            else
              ⟨⟨200, .okId d.id⟩, some rl.2, 1, []⟩

end SendEmail

namespace SendEmail

/-! ### Helper lemmas shared by the claim theorems -/

/-- Unfolding of `isRateLimited` on a present entry. -/
theorem isRateLimited_some (now : Int) (e : RLEntry) :
    isRateLimited now (some e) =
      if now - e.windowStart > RATE_LIMIT_WINDOW then (false, ⟨now, 1⟩)
      else (decide (e.count + 1 > RATE_LIMIT_MAX), ⟨e.windowStart, e.count + 1⟩) :=
  rfl

/-- Unfolding of `timestampFires` on a present timestamp. -/
theorem timestampFires_some (now : Int) (s : String) :
    timestampFires now (some s) =
      if s = "" then false
      else
        match parseIntJS s with
        | none => false
        | some t => decide (now - t < MIN_SUBMIT_TIME) :=
  rfl

/-- `parseInt` never succeeds on the empty string. -/
theorem parseIntJS_ne_empty {s : String} {t : Int} (h : parseIntJS s = some t) :
    s ≠ "" := by
  intro he
  subst he
  rw [show parseIntJS "" = none from rfl] at h
  exact Option.noConfusion h

/-- On every POST request the handler stores back exactly the entry computed
by `isRateLimited`. -/
theorem handler_newEntry_post (req : Request) (now : Int) (entry : Option RLEntry)
    (relay : Option RelayData) (hm : req.method = "POST") :
    (handler req now entry relay).newEntry = some (isRateLimited now entry).2 := by
  unfold handler
  simp only [hm, ne_eq, not_true_eq_false, if_false]
  split
  · rfl
  · split
    · rfl
    · split
      · rfl
      · split
        · rfl
        · split
          · rfl
          · split
            · rfl
            · split
              · rfl
              · rfl

/-- On a POST request, the handler answers 429 exactly when `isRateLimited`
reports the request limited. -/
theorem handler_status_429_iff (req : Request) (now : Int) (entry : Option RLEntry)
    (relay : Option RelayData) (hm : req.method = "POST") :
    ((handler req now entry relay).resp.status = 429 ↔
      (isRateLimited now entry).1 = true) := by
  unfold handler
  simp only [hm, ne_eq, not_true_eq_false, if_false]
  split
  · simp_all
  · split
    · simp_all
    · split
      · simp_all
      · split
        · simp_all
        · split
          · simp_all
          · split
            · simp_all
            · split
              · simp_all
              · simp_all

end SendEmail

namespace SendEmail

/-! ### Claim theorems -/

/-- C1: for every source address, if a POST request arrives while the
address's rate-limit entry has a non-expired window (elapsed ≤ 60·1000 ms)
and the incremented count exceeds the configured maximum of 3, the handler
responds 429 and performs no relay call; in particular the 4th and every
later request within one window (stored count already ≥ 3) returns 429. -/
theorem rate_limit_exceeded_rejects_with_429 (req : Request) (now : Int)
    (e : RLEntry) (relay : Option RelayData)
    (hm : req.method = "POST")
    (hwin : now - e.windowStart ≤ RATE_LIMIT_WINDOW)
    (hcnt : e.count + 1 > RATE_LIMIT_MAX) :
    (handler req now (some e) relay).resp =
      ⟨429, .err "Too many requests. Please try again later."⟩ ∧
    (handler req now (some e) relay).relayCalls = 0 := by
  have hlim : (isRateLimited now (some e)).1 = true := by
    rw [isRateLimited_some, if_neg (not_lt.mpr hwin)]
    simpa using hcnt
  unfold handler
  simp [hm, hlim]

/-- Witness for C1: the 4th request 100 ms into the window is rejected. -/
theorem rate_limit_exceeded_rejects_with_429_witness :
    (handler ⟨"POST", some "1.2.3.4", none, none⟩ 100 (some ⟨0, 3⟩) none).resp =
      ⟨429, .err "Too many requests. Please try again later."⟩ ∧
    (handler ⟨"POST", some "1.2.3.4", none, none⟩ 100 (some ⟨0, 3⟩) none).relayCalls = 0 :=
  rate_limit_exceeded_rejects_with_429 ⟨"POST", some "1.2.3.4", none, none⟩
    100 ⟨0, 3⟩ none rfl (by decide) (by decide)

/-- C2 counterexample: the claim resets the window when elapsed ≥ 60·1000 ms,
but the code resets only when elapsed is strictly greater. At elapsed exactly
equal to the window length with a stored count of 3, the request is rejected
with 429 and the entry is incremented in place rather than reset to a fresh
window with count 1. -/
theorem window_boundary_claim_fails_at_exact_window :
    (60000 : Int) - (0 : Int) ≥ RATE_LIMIT_WINDOW ∧
    (handler ⟨"POST", some "1.2.3.4", none, none⟩ 60000
        (some ⟨0, 3⟩) none).resp.status = 429 ∧
    (handler ⟨"POST", some "1.2.3.4", none, none⟩ 60000
        (some ⟨0, 3⟩) none).newEntry = some ⟨0, 4⟩ := by
  refine ⟨by decide, rfl, rfl⟩

/-- C2 amended: for every POST request, if the source address has no
rate-limit entry or the elapsed time since the entry's windowStart is
STRICTLY GREATER THAN the window length of 60·1000 ms, the guard resets the
entry to a fresh window with count 1 and the request is not rejected
with 429. -/
theorem expired_window_resets_and_proceeds (req : Request) (now : Int)
    (entry : Option RLEntry) (relay : Option RelayData)
    (hm : req.method = "POST")
    (h : entry = none ∨
      ∃ e, entry = some e ∧ now - e.windowStart > RATE_LIMIT_WINDOW) :
    (handler req now entry relay).newEntry = some ⟨now, 1⟩ ∧
    (handler req now entry relay).resp.status ≠ 429 := by
  have hrl : isRateLimited now entry = (false, ⟨now, 1⟩) := by
    rcases h with h | ⟨e, he, hgt⟩
    · rw [h]; rfl
    · rw [he, isRateLimited_some, if_pos hgt]
  have h1 : (isRateLimited now entry).1 = false := by rw [hrl]
  have h2 : (isRateLimited now entry).2 = ⟨now, 1⟩ := by rw [hrl]
  refine ⟨by rw [handler_newEntry_post req now entry relay hm, h2], ?_⟩
  intro h429
  rw [(handler_status_429_iff req now entry relay hm).mp h429] at h1
  exact Bool.noConfusion h1

/-- Witness for C2 amended: a request 60001 ms after windowStart gets a
fresh window. -/
theorem expired_window_resets_and_proceeds_witness :
    (handler ⟨"POST", some "1.2.3.4", none, none⟩ 60001
        (some ⟨0, 3⟩) none).newEntry = some ⟨60001, 1⟩ ∧
    (handler ⟨"POST", some "1.2.3.4", none, none⟩ 60001
        (some ⟨0, 3⟩) none).resp.status ≠ 429 :=
  expired_window_resets_and_proceeds ⟨"POST", some "1.2.3.4", none, none⟩
    60001 (some ⟨0, 3⟩) none rfl (Or.inr ⟨⟨0, 3⟩, rfl, by decide⟩)

/-- C3: for every POST request that passes the rate-limit guard, if the
honeypot field `website` is non-empty, or a `timestamp` field is present
whose parsed value is less than 3000 ms before now, the handler responds
200 `{success:true}` and performs no relay call, regardless of the other
fields. -/
theorem bot_guards_silently_accept (req : Request) (now : Int)
    (entry : Option RLEntry) (relay : Option RelayData)
    (hm : req.method = "POST")
    (hnl : (isRateLimited now entry).1 = false)
    (hbot : truthy (req.body.getD emptyBody).website = true ∨
      ∃ s t, (req.body.getD emptyBody).timestamp = some s ∧
        parseIntJS s = some t ∧ now - t < MIN_SUBMIT_TIME) :
    (handler req now entry relay).resp = ⟨200, .ok⟩ ∧
    (handler req now entry relay).relayCalls = 0 := by
  rcases hbot with hweb | ⟨s, t, hts, hp, hlt⟩
  · unfold handler
    simp [hm, hnl, hweb]
  · by_cases hweb : truthy (req.body.getD emptyBody).website = true
    · unfold handler
      simp [hm, hnl, hweb]
    · have hweb' : truthy (req.body.getD emptyBody).website = false := by
        simpa using hweb
      have hfire : timestampFires now (req.body.getD emptyBody).timestamp = true := by
        rw [hts, timestampFires_some, if_neg (parseIntJS_ne_empty hp), hp]
        simpa using hlt
      unfold handler
      simp [hm, hnl, hweb', hfire]

/-- Witness for C3: a filled honeypot field with otherwise-empty body is
silently accepted with no relay call. -/
theorem bot_guards_silently_accept_witness :
    (handler ⟨"POST", some "1.2.3.4", none,
        some ⟨none, none, none, none, none, some "bot", none⟩⟩ 100 none
        (some ⟨true, some "x"⟩)).resp = ⟨200, .ok⟩ ∧
    (handler ⟨"POST", some "1.2.3.4", none,
        some ⟨none, none, none, none, none, some "bot", none⟩⟩ 100 none
        (some ⟨true, some "x"⟩)).relayCalls = 0 :=
  bot_guards_silently_accept _ 100 none (some ⟨true, some "x"⟩) rfl rfl
    (Or.inl (by decide))

end SendEmail

namespace SendEmail

/-- C4: for every POST request that passes the rate-limit, honeypot, and
timing guards, if any of name, email, or message is absent or empty, the
handler responds 400 with a details object whose per-field boolean is the
presence flag of that field (false exactly for each missing field), and
performs no relay call. -/
theorem missing_fields_rejected_with_details (req : Request) (now : Int)
    (entry : Option RLEntry) (relay : Option RelayData)
    (hm : req.method = "POST")
    (hnl : (isRateLimited now entry).1 = false)
    (hweb : truthy (req.body.getD emptyBody).website = false)
    (hts : timestampFires now (req.body.getD emptyBody).timestamp = false)
    (hmiss : (truthy (req.body.getD emptyBody).name &&
      truthy (req.body.getD emptyBody).email &&
      truthy (req.body.getD emptyBody).message) = false) :
    (handler req now entry relay).resp =
      ⟨400, .errDetails "Missing required fields"
        (truthy (req.body.getD emptyBody).name)
        (truthy (req.body.getD emptyBody).email)
        (truthy (req.body.getD emptyBody).message)⟩ ∧
    (handler req now entry relay).relayCalls = 0 := by
  unfold handler
  simp [hm, hnl, hweb, hts, hmiss]

/-- Witness for C4: a body with only an email present yields 400 with
details `{name: false, email: true, message: false}` and no relay call. -/
theorem missing_fields_rejected_with_details_witness :
    (handler ⟨"POST", some "1.2.3.4", none,
        some ⟨none, some "a@b.c", none, none, none, none, none⟩⟩ 100 none
        (some ⟨true, some "x"⟩)).resp =
      ⟨400, .errDetails "Missing required fields" false true false⟩ ∧
    (handler ⟨"POST", some "1.2.3.4", none,
        some ⟨none, some "a@b.c", none, none, none, none, none⟩⟩ 100 none
        (some ⟨true, some "x"⟩)).relayCalls = 0 :=
  missing_fields_rejected_with_details _ 100 none (some ⟨true, some "x"⟩)
    rfl rfl rfl rfl rfl

/-- C5: for every POST request that passes the earlier guards with name,
email, and message present, if the email fails the regex test the handler
responds 400 `{error: 'Invalid email format'}` with no relay call, and if
it passes the request proceeds to relay dispatch (the relay is called). -/
theorem email_format_gate (req : Request) (now : Int)
    (entry : Option RLEntry) (relay : Option RelayData)
    (hm : req.method = "POST")
    (hnl : (isRateLimited now entry).1 = false)
    (hweb : truthy (req.body.getD emptyBody).website = false)
    (hts : timestampFires now (req.body.getD emptyBody).timestamp = false)
    (hfields : (truthy (req.body.getD emptyBody).name &&
      truthy (req.body.getD emptyBody).email &&
      truthy (req.body.getD emptyBody).message) = true) :
    (emailRegexTest ((req.body.getD emptyBody).email.getD "") = false →
      (handler req now entry relay).resp = ⟨400, .err "Invalid email format"⟩ ∧
      (handler req now entry relay).relayCalls = 0) ∧
    (emailRegexTest ((req.body.getD emptyBody).email.getD "") = true →
      (handler req now entry relay).relayCalls = 1) := by
  constructor
  · intro hbad
    unfold handler
    simp [hm, hnl, hweb, hts, hfields, hbad]
  · intro hgood
    unfold handler
    simp only [hm, ne_eq, not_true_eq_false, if_false, hnl, Bool.false_eq_true,
      hweb, hts, hfields, Bool.not_true, hgood]
    cases relay with
    | none => rfl
    | some d => cases hd : d.ok <;> simp [hd]

/-- Witness for C5: a bad email is rejected with 400 and a good one reaches
the relay. -/
theorem email_format_gate_witness :
    ((emailRegexTest (((⟨"POST", some "ip", none,
        some ⟨some "n", some "not-an-email", none, none, some "m", none,
          none⟩⟩ : Request).body.getD emptyBody).email.getD "") = false →
      (handler ⟨"POST", some "ip", none,
        some ⟨some "n", some "not-an-email", none, none, some "m", none, none⟩⟩
        100 none none).resp = ⟨400, .err "Invalid email format"⟩ ∧
      (handler ⟨"POST", some "ip", none,
        some ⟨some "n", some "not-an-email", none, none, some "m", none, none⟩⟩
        100 none none).relayCalls = 0) ∧
    (emailRegexTest (((⟨"POST", some "ip", none,
        some ⟨some "n", some "not-an-email", none, none, some "m", none,
          none⟩⟩ : Request).body.getD emptyBody).email.getD "") = true →
      (handler ⟨"POST", some "ip", none,
        some ⟨some "n", some "not-an-email", none, none, some "m", none, none⟩⟩
        100 none none).relayCalls = 1)) ∧
    (handler ⟨"POST", some "ip", none,
      some ⟨some "n", some "not-an-email", none, none, some "m", none, none⟩⟩
      100 none none).resp = ⟨400, .err "Invalid email format"⟩ := by
  refine ⟨email_format_gate _ 100 none none rfl rfl rfl rfl rfl, ?_⟩
  exact (email_format_gate ⟨"POST", some "ip", none,
    some ⟨some "n", some "not-an-email", none, none, some "m", none, none⟩⟩
    100 none none rfl rfl rfl rfl rfl).1 (by decide) |>.1

end SendEmail

namespace SendEmail

/-- C6: for every fully valid POST request that reaches relay dispatch, the
handler calls the relay exactly once; if the relay reports failure the
handler responds 500 `{error:'Failed to send email'}`, and if it succeeds
the handler responds 200 `{success:true, id}` with the relay's assigned
message identifier. -/
theorem relay_dispatch_result (req : Request) (now : Int)
    (entry : Option RLEntry) (d : RelayData)
    (hm : req.method = "POST")
    (hnl : (isRateLimited now entry).1 = false)
    (hweb : truthy (req.body.getD emptyBody).website = false)
    (hts : timestampFires now (req.body.getD emptyBody).timestamp = false)
    (hfields : (truthy (req.body.getD emptyBody).name &&
      truthy (req.body.getD emptyBody).email &&
      truthy (req.body.getD emptyBody).message) = true)
    (hemail : emailRegexTest ((req.body.getD emptyBody).email.getD "") = true) :
    (handler req now entry (some d)).relayCalls = 1 ∧
    (d.ok = false →
      (handler req now entry (some d)).resp = ⟨500, .err "Failed to send email"⟩) ∧
    (d.ok = true →
      (handler req now entry (some d)).resp = ⟨200, .okId d.id⟩) := by
  unfold handler
  simp only [hm, ne_eq, not_true_eq_false, if_false, hnl, Bool.false_eq_true,
    hweb, hts, hfields, Bool.not_true, hemail]
  cases hd : d.ok <;> simp [hd]

/-- Witness for C6: a valid submission with a succeeding relay returning id
"abc123" yields 200 `{success:true, id:"abc123"}` after exactly one call. -/
theorem relay_dispatch_result_witness :
    (handler ⟨"POST", some "ip", none,
      some ⟨some "n", some "a@b.c", none, none, some "m", none, none⟩⟩
      100 none (some ⟨true, some "abc123"⟩)).relayCalls = 1 ∧
    ((⟨true, some "abc123"⟩ : RelayData).ok = false →
      (handler ⟨"POST", some "ip", none,
        some ⟨some "n", some "a@b.c", none, none, some "m", none, none⟩⟩
        100 none (some ⟨true, some "abc123"⟩)).resp =
          ⟨500, .err "Failed to send email"⟩) ∧
    ((⟨true, some "abc123"⟩ : RelayData).ok = true →
      (handler ⟨"POST", some "ip", none,
        some ⟨some "n", some "a@b.c", none, none, some "m", none, none⟩⟩
        100 none (some ⟨true, some "abc123"⟩)).resp =
          ⟨200, .okId (some "abc123")⟩) :=
  relay_dispatch_result _ 100 none ⟨true, some "abc123"⟩ rfl rfl rfl rfl rfl
    (by decide)

/-- C7: for every rate-limit entry state and every POST request, the entry
stored back never has a count exceeding the maximum of 3 unless that request
is rejected with 429, and while the stored window is unexpired its
windowStart is not modified (the boundary stays the fixed 60·1000 ms from
the stored windowStart, not a sliding one). -/
theorem rate_limit_invariant (req : Request) (now : Int)
    (entry : Option RLEntry) (relay : Option RelayData) (e' : RLEntry)
    (hm : req.method = "POST")
    (hnew : (handler req now entry relay).newEntry = some e') :
    (e'.count > RATE_LIMIT_MAX → (handler req now entry relay).resp.status = 429) ∧
    (∀ e, entry = some e → now - e.windowStart ≤ RATE_LIMIT_WINDOW →
      e'.windowStart = e.windowStart) := by
  have he' : e' = (isRateLimited now entry).2 := by
    have h := handler_newEntry_post req now entry relay hm
    rw [hnew] at h
    exact Option.some.inj h
  constructor
  · intro hcount
    rw [handler_status_429_iff req now entry relay hm]
    cases entry with
    | none =>
      rw [he'] at hcount
      simp [isRateLimited, RATE_LIMIT_MAX] at hcount
    | some e =>
      rw [isRateLimited_some]
      rw [he', isRateLimited_some] at hcount
      by_cases hx : now - e.windowStart > RATE_LIMIT_WINDOW
      · rw [if_pos hx] at hcount
        simp [RATE_LIMIT_MAX] at hcount
      · rw [if_neg hx] at hcount
        rw [if_neg hx]
        simpa using hcount
  · intro e he hwin
    rw [he] at he'
    rw [he', isRateLimited_some, if_neg (not_lt.mpr hwin)]

/-- Witness for C7: a 4th request inside the window stores count 4 and is
answered 429; its windowStart is the one stored at the window's start. -/
theorem rate_limit_invariant_witness :
    (((⟨0, 4⟩ : RLEntry).count > RATE_LIMIT_MAX →
      (handler ⟨"POST", some "ip", none, none⟩ 100
        (some ⟨0, 3⟩) none).resp.status = 429) ∧
    (∀ e, (some ⟨0, 3⟩ : Option RLEntry) = some e →
      100 - e.windowStart ≤ RATE_LIMIT_WINDOW →
      (⟨0, 4⟩ : RLEntry).windowStart = e.windowStart)) ∧
    (handler ⟨"POST", some "ip", none, none⟩ 100
      (some ⟨0, 3⟩) none).resp.status = 429 := by
  refine ⟨rate_limit_invariant _ 100 (some ⟨0, 3⟩) none ⟨0, 4⟩ rfl rfl, ?_⟩
  exact (rate_limit_invariant ⟨"POST", some "ip", none, none⟩ 100
    (some ⟨0, 3⟩) none ⟨0, 4⟩ rfl rfl).1 (by decide)

end SendEmail

namespace SendEmail

/-- C8 counterexample: the claim says every error response is preceded by a
server-side log, but a non-POST request is answered 405 with no log emitted
(the same holds for the 429 and the invalid-email 400 paths). -/
theorem error_logging_claim_fails_on_405 :
    (handler ⟨"GET", none, none, none⟩ 0 none none).resp.status = 405 ∧
    (handler ⟨"GET", none, none, none⟩ 0 none none).logs = [] :=
  ⟨rfl, rfl⟩

/-- C8 amended: only the missing-required-fields 400, the relay-failure 500,
and the unexpected-error 500 emit a server-side log before the response; the
405, 429, and invalid-email-format 400 responses emit no log, and the two
silent-accept bot paths (status 200 without relay) emit no log either. -/
theorem error_logging_characterisation (req : Request) (now : Int)
    (entry : Option RLEntry) (relay : Option RelayData) :
    ((handler req now entry relay).resp.status = 405 →
      (handler req now entry relay).logs = []) ∧
    ((handler req now entry relay).resp.status = 429 →
      (handler req now entry relay).logs = []) ∧
    ((handler req now entry relay).resp.body = .err "Invalid email format" →
      (handler req now entry relay).logs = []) ∧
    (∀ n e m, (handler req now entry relay).resp.body =
        .errDetails "Missing required fields" n e m →
      (handler req now entry relay).logs = [.missingFields n e m]) ∧
    ((handler req now entry relay).resp.body = .err "Failed to send email" →
      (handler req now entry relay).logs = [.resendError]) ∧
    ((handler req now entry relay).resp.body = .err "Server error" →
      (handler req now entry relay).logs = [.serverError]) ∧
    ((handler req now entry relay).resp.status = 200 →
      (handler req now entry relay).logs = []) := by
  unfold handler
  cases relay with
  | none =>
    simp only [ne_eq]
    split_ifs <;> simp
  | some d =>
    simp only [ne_eq]
    split_ifs <;> simp

/-- Witness for C8 amended: the 405, missing-fields, and relay-failure
branches show the characterisation at concrete inputs. -/
theorem error_logging_characterisation_witness :
    (handler ⟨"GET", none, none, none⟩ 0 none none).logs = [] ∧
    (handler ⟨"POST", some "ip", none, some emptyBody⟩ 0 none none).logs =
      [.missingFields false false false] ∧
    (handler ⟨"POST", some "ip", none,
      some ⟨some "n", some "a@b.c", none, none, some "m", none, none⟩⟩
      0 none (some ⟨false, none⟩)).logs = [.resendError] := by
  refine ⟨(error_logging_characterisation ⟨"GET", none, none, none⟩
      0 none none).1 rfl, ?_, ?_⟩
  · exact (error_logging_characterisation ⟨"POST", some "ip", none,
      some emptyBody⟩ 0 none none).2.2.2.1 false false false rfl
  · exact (error_logging_characterisation ⟨"POST", some "ip", none,
      some ⟨some "n", some "a@b.c", none, none, some "m", none, none⟩⟩
      0 none (some ⟨false, none⟩)).2.2.2.2.1 rfl

/-- C9: for every POST request that passes the rate-limit guard and carries
no body (absent or empty object), the handler treats every field as absent,
skips the honeypot and timing guards, and responds 400
`{error:'Missing required fields'}` with details all false, no relay call,
and the missing-fields log. -/
theorem empty_body_rejected_safely (req : Request) (now : Int)
    (entry : Option RLEntry) (relay : Option RelayData)
    (hm : req.method = "POST")
    (hb : req.body = none ∨ req.body = some emptyBody)
    (hnl : (isRateLimited now entry).1 = false) :
    handler req now entry relay =
      ⟨⟨400, .errDetails "Missing required fields" false false false⟩,
        some (isRateLimited now entry).2, 0,
        [.missingFields false false false]⟩ := by
  unfold handler
  rcases hb with h | h <;> rw [h] <;>
    simp [hm, hnl, emptyBody, truthy, timestampFires]

/-- Witness for C9: a bodyless POST gets 400 with all-false details. -/
theorem empty_body_rejected_safely_witness :
    handler ⟨"POST", some "1.2.3.4", none, none⟩ 100 none (some ⟨true, some "x"⟩) =
      ⟨⟨400, .errDetails "Missing required fields" false false false⟩,
        some ⟨100, 1⟩, 0, [.missingFields false false false]⟩ :=
  empty_body_rejected_safely ⟨"POST", some "1.2.3.4", none, none⟩ 100 none
    (some ⟨true, some "x"⟩) rfl (Or.inl rfl) rfl

/-- C10: for every request whose timestamp field is present but not
parseable as an integer, the timing guard does not fire (the NaN comparison
is false) and the handler behaves exactly as if the timestamp were
absent. -/
theorem unparseable_timestamp_ignored (m : String) (xf xr : Option String)
    (b : Body) (now : Int) (entry : Option RLEntry) (relay : Option RelayData)
    (s : String)
    (hts : b.timestamp = some s)
    (hparse : parseIntJS s = none) :
    timestampFires now b.timestamp = false ∧
    handler ⟨m, xf, xr, some b⟩ now entry relay =
      handler ⟨m, xf, xr, some { b with timestamp := none }⟩ now entry relay := by
  have hfire : timestampFires now b.timestamp = false := by
    rw [hts, timestampFires_some, hparse]
    simp
  refine ⟨hfire, ?_⟩
  unfold handler
  simp only [Option.getD_some, hfire,
    show timestampFires now (none : Option String) = false from rfl]

/-- Witness for C10: a non-numeric timestamp string is ignored and the
request is handled as if no timestamp were supplied. -/
theorem unparseable_timestamp_ignored_witness :
    timestampFires 100
      (⟨some "n", some "a@b.c", none, none, some "m", none, some "junk"⟩ :
        Body).timestamp = false ∧
    handler ⟨"POST", some "ip", none,
        some ⟨some "n", some "a@b.c", none, none, some "m", none, some "junk"⟩⟩
        100 none (some ⟨true, some "x"⟩) =
      handler ⟨"POST", some "ip", none,
        some ⟨some "n", some "a@b.c", none, none, some "m", none, none⟩⟩
        100 none (some ⟨true, some "x"⟩) :=
  unparseable_timestamp_ignored "POST" (some "ip") none
    ⟨some "n", some "a@b.c", none, none, some "m", none, some "junk"⟩
    100 none (some ⟨true, some "x"⟩) "junk" rfl (by decide)

end SendEmail
